import Mathlib

/-!
Verification of the queue/cache/DOM-annotation engine of the twitter-fact-checker
repository. The definitions below are a shallow embedding of
src/extension/content.js (the content-script orchestration logic) and of the
input validation of src/app/api/checktweet/route.ts.

Modelling conventions:
- The tweet text element's children are modelled as a list of `Node`s: plain
  text runs and the marker elements the renderer inserts (incorrect spans,
  correction spans, the verified badge). The warning badge, which the code
  inserts into the parent element, is modelled as a counter on the element.
- The regex replacement `markedUpHTML.replace(regex, ...)` that wraps
  case-insensitive occurrences of an incorrect phrase is modelled as a
  node-level rewrite that splits text runs around each occurrence; text that
  already sits inside a previously inserted marker element is treated as
  opaque to later phrase matching.
- `chrome.storage` is modelled as an explicit association list passed to
  `loadCache` / `saveCache`; `Date.now()` is an explicit `Nat` argument.
- The JavaScript 32-bit hash in `generateTweetId` is modelled on `Int` with an
  explicit reduction into the signed 32-bit range.
- All the statements of `processTweet` up to and including the
  `requestQueue.push` run synchronously in the source (there is no `await`
  between the `processingTweets.has` check and the push), so that whole
  section is embedded as one atomic step on the session state.
-/

namespace FactCheck

/-- Verdict returned by the backend: the JSON body
`(hasIssues, incorrect, corrections, summary, exaAnalysis)` built by
src/app/api/checktweet/route.ts. -/
structure Verdict where
  hasIssues : Bool
  incorrect : List String
  corrections : List String
  summary : String
  exaAnalysis : String
deriving Repr, DecidableEq

/-- Children of the tweet text element, as the renderer sees them:
plain text runs, the red incorrect spans (class factcheck-incorrect,
data-factcheck-markup), the green correction spans (class
factcheck-correction, data-factcheck-markup), and the verified badge
(class factcheck-verified, data-factcheck-badge). -/
inductive Node where
  | text : String → Node
  | incorrectSpan : String → Node
  | correctionSpan : String → Node
  | verifiedBadge : Node
deriving Repr, DecidableEq

/-- One tweet `article` element together with the extension state the content
script stores on it: the optional tweet text element (`none` when the
`tweetText` query selector finds nothing), the number of factcheck-warning
badges inserted before the text element, the `dataset.factChecked` and
`dataset.factcheckResult` attributes, and the injected check button. -/
structure TweetElement where
  textNodes : Option (List Node)
  warningCount : Nat
  factChecked : Option String
  factcheckResult : Option Verdict
  hasButton : Bool
  buttonDisabled : Bool
  buttonLabel : String
  buttonHidden : Bool
deriving Repr, DecidableEq

/-- Entry of the rate-limited request queue (content.js `requestQueue`).
The DOM anchor and the resolve callback are carried alongside in the source;
here the anchor is passed explicitly to the functions that touch it. -/
structure QueuedRequest where
  tweetId : String
  tweetText : String
deriving Repr, DecidableEq

/-- The module-level mutable state of content.js that the scheduling claims
are about: the enabled flag, the in-memory cache map, the `processingTweets`
set, the request queue, and the identities of requests already dispatched and
awaiting their response. -/
structure SessionState where
  extensionEnabled : Bool
  tweetCache : List (String × Verdict)
  processingTweets : List String
  requestQueue : List QueuedRequest
  inFlight : List String
deriving Repr, DecidableEq

/-! ### Content extractor (content.js extractTweetText / generateTweetId) -/

/-- DOM textContent of a node list: a correction span holds the string
written by `correctionSpan.textContent = ...` with its bracket decoration,
and the verified badge holds its fixed label. -/
def textContent : List Node → String
  | [] => ""
  | Node.text s :: ns => s ++ textContent ns
  | Node.incorrectSpan s :: ns => s ++ textContent ns
  | Node.correctionSpan s :: ns => " [" ++ s ++ "]" ++ textContent ns
  | Node.verifiedBadge :: ns => "✓ Fact-checked" ++ textContent ns

/-- The JavaScript String.prototype.trim: strip whitespace from both ends. -/
def trimText (s : String) : String :=
  String.mk
    (((s.toList.dropWhile Char.isWhitespace).reverse.dropWhile
        Char.isWhitespace).reverse)

/-- content.js extractTweetText: textContent of the tweet text element,
trimmed; `none` when the element is absent. -/
def extractTweetText (e : TweetElement) : Option String :=
  match e.textNodes with
  | none => none
  | some ns => some (trimText (textContent ns))

/-- Reduction of an integer into the signed 32-bit range, the effect of the
JavaScript `hash = hash & hash` coercion and of the `<<` operator. -/
def toInt32 (n : Int) : Int :=
  let m := n % 4294967296
  if m < 2147483648 then m else m - 4294967296

/-- content.js generateTweetId: the iterated
`hash = ((hash << 5) - hash) + charCode; hash = hash & hash` loop, rendered
as a decimal string. -/
def generateTweetId (text : String) : String :=
  toString (text.toList.foldl
    (fun hash c => toInt32 (toInt32 (hash * 32) - hash + (c.toNat : Int))) 0)

/-! ### Content-addressed cache (content.js loadCache / saveCache /
saveCacheEntry, and the lookup in processTweet) -/

/-- The in-session lookup performed by processTweet:
`tweetCache.has(tweetId)` followed by `tweetCache.get(tweetId)`.
Note it does not consult any expiry information. -/
def lookupCache (cache : List (String × Verdict)) (tweetId : String) :
    Option Verdict :=
  (cache.find? (fun kv => kv.1 == tweetId)).map (fun kv => kv.2)

/-- The in-memory effect of content.js saveCacheEntry:
`tweetCache.set(tweetId, result)` (insert or overwrite the key). -/
def saveCacheEntry (cache : List (String × Verdict)) (tweetId : String)
    (result : Verdict) : List (String × Verdict) :=
  (tweetId, result) :: cache.filter (fun kv => !(kv.1 == tweetId))

def CACHE_EXPIRY_DAYS : Nat := 7

/-- The `CACHE_EXPIRY_DAYS * 24 * 60 * 60 * 1000` milliseconds added by
content.js saveCache. -/
def CACHE_EXPIRY_MS : Nat := CACHE_EXPIRY_DAYS * 24 * 60 * 60 * 1000

/-- content.js saveCache: snapshots every in-memory entry into storage with
`expiry = now + CACHE_EXPIRY_DAYS * 24*60*60*1000` computed from the time of
the snapshot, the same value for all entries. -/
def saveCache (cache : List (String × Verdict)) (now : Nat) :
    List (String × Verdict × Nat) :=
  cache.map (fun kv => (kv.1, kv.2, now + CACHE_EXPIRY_MS))

/-- content.js loadCache: replays the stored snapshot into the in-memory map,
keeping an entry only when `data.expiry && data.expiry > now`. -/
def loadCache (stored : List (String × Verdict × Nat)) (now : Nat) :
    List (String × Verdict) :=
  stored.foldl
    (fun m ent => if now < ent.2.2 then saveCacheEntry m ent.1 ent.2.1 else m)
    []

/-! ### Annotation renderer (content.js applyMarkup / removeAllMarkups) -/

/-- Case-insensitive prefix test, the effect of the `gi` regex flags. -/
def ciStartsWith : List Char → List Char → Bool
  | [], _ => true
  | _ :: _, [] => false
  | p :: ps, c :: cs => (p.toLower == c.toLower) && ciStartsWith ps cs

/-- Index of the first case-insensitive occurrence of the phrase in the run. -/
def ciFindIdx (p : List Char) : List Char → Option Nat
  | [] => if p.isEmpty then some 0 else none
  | c :: cs =>
    if ciStartsWith p (c :: cs) then some 0
    else (ciFindIdx p cs).map (fun i => i + 1)

/-- Wrap every case-insensitive occurrence of the (nonempty) phrase inside one
text run, emitting a factcheck-incorrect span around each matched slice, as
the global regex replace in applyMarkup does. The fuel is the run length,
which bounds the number of matches. -/
def wrapChars (p : List Char) : Nat → List Char → List Node
  | 0, cs => if cs.isEmpty then [] else [Node.text (String.mk cs)]
  | fuel + 1, cs =>
    match ciFindIdx p cs with
    | none => if cs.isEmpty then [] else [Node.text (String.mk cs)]
    | some i =>
      let pre := cs.take i
      let matched := (cs.drop i).take p.length
      let rest := (cs.drop i).drop p.length
      (if pre.isEmpty then [] else [Node.text (String.mk pre)]) ++
        Node.incorrectSpan (String.mk matched) :: wrapChars p fuel rest

/-- Apply the red markup for one incorrect phrase to one node: text runs are
split around matches; already inserted marker elements are left alone. -/
def wrapPhrase (p : String) : Node → List Node
  | Node.text s =>
    if p.isEmpty then [Node.text s] else wrapChars p.toList s.length s.toList
  | n => [n]

/-- Red markup for one phrase over the whole child list. -/
def wrapPhraseInNodes (p : String) (ns : List Node) : List Node :=
  ns.flatMap (wrapPhrase p)

/-- content.js applyMarkup: no-op when the tweet text element is absent;
sets `dataset.factChecked = "true"`; on a clean verdict appends one verified
badge; otherwise wraps each incorrect phrase in red spans, appends one green
correction span per correction, inserts one warning badge before the text
element, and stores the verdict on the element. -/
def applyMarkup (e : TweetElement) (result : Verdict) : TweetElement :=
  match e.textNodes with
  | none => e
  | some ns =>
    let e := { e with factChecked := some "true" }
    if !result.hasIssues then
      { e with textNodes := some (ns ++ [Node.verifiedBadge]) }
    else
      let marked := result.incorrect.foldl (fun acc p => wrapPhraseInNodes p acc) ns
      let marked := marked ++ result.corrections.map Node.correctionSpan
      { e with
          textNodes := some marked,
          warningCount := e.warningCount + 1,
          factcheckResult := some result }

/-- Marker elements: everything matched by the `[data-factcheck-markup]` and
`[data-factcheck-badge]` selectors. -/
def isMarkerNode : Node → Bool
  | Node.text _ => false
  | _ => true

/-- content.js removeAllMarkups restricted to one element: removes every
marker element and the check button, and clears the dataset flags on
elements carrying `data-fact-checked`. The warning badges live in the parent
and carry `data-factcheck-badge`, so they are removed as well. -/
def removeMarkupsElem (e : TweetElement) : TweetElement :=
  let e := { e with
      textNodes := e.textNodes.map (fun ns : List Node => ns.filter (fun n => !isMarkerNode n)),
      warningCount := 0,
      hasButton := false }
  if e.factChecked.isSome then
    { e with factChecked := none, factcheckResult := none }
  else e

/-- content.js removeAllMarkups over the whole document. -/
def removeAllMarkups (doc : List TweetElement) : List TweetElement :=
  doc.map removeMarkupsElem

/-- content.js addCheckButton: skips when a button already exists, when the
element is already marked checked, when the text element is absent, or when
the text is missing or shorter than 50 characters; otherwise injects one
enabled, visible check button. -/
def addCheckButton (e : TweetElement) : TweetElement :=
  if e.hasButton then e
  else if e.factChecked = some "true" then e
  else
    match extractTweetText e with
    | none => e
    | some t =>
      if t.isEmpty || t.length < 50 then e
      else
        { e with
            hasButton := true, buttonDisabled := false,
            buttonLabel := "🔍 Check Fact", buttonHidden := false }

/-! ### Verification call (content.js checkTweet and route.ts POST) -/

/-- What the fetch in checkTweet can observe: a network failure, or an HTTP
response with a status and a body that either parses into a verdict or is
malformed (`none`). -/
inductive FetchOutcome where
  | networkError : FetchOutcome
  | response : Nat → Option Verdict → FetchOutcome
deriving Repr, DecidableEq

/-- content.js checkTweet: resolves with the parsed verdict on a 2xx response
with a well-formed body, and with `null` (here `none`) on a network error, a
non-2xx status, or a malformed body. -/
def checkTweet (outcome : FetchOutcome) : Option Verdict :=
  match outcome with
  | FetchOutcome.networkError => none
  | FetchOutcome.response status body =>
    if 200 ≤ status && status < 300 then body else none

/-- route.ts POST: the `!text || text.length < 50` validation, answered with
a 400 error; on valid input the verdict produced by the two external API
calls, abstracted as the function argument `verdictOf`. -/
inductive ApiResponse where
  | ok : Verdict → ApiResponse
  | err : Nat → String → ApiResponse
deriving Repr, DecidableEq

def postCheckTweet (verdictOf : String → Verdict) (body : Option String) :
    ApiResponse :=
  match body with
  | none => ApiResponse.err 400 "Tweet text is required and must be at least 50 characters"
  | some t =>
    if t.isEmpty || t.length < 50 then
      ApiResponse.err 400 "Tweet text is required and must be at least 50 characters"
    else ApiResponse.ok (verdictOf t)

/-! ### processTweet and the request scheduler -/

/-- The loading state processTweet puts the element into before queueing:
`dataset.factChecked = "loading"` and the disabled button label. -/
def setLoading (e : TweetElement) : TweetElement :=
  if e.hasButton then
    { e with factChecked := some "loading", buttonDisabled := true,
             buttonLabel := "🔍 Checking..." }
  else { e with factChecked := some "loading" }

/-- content.js processTweet, up to and including the `requestQueue.push`.
Every statement in this span is synchronous in the source — in particular
there is no suspension point between the `processingTweets.has(tweetId)`
check and the `processingTweets.add(tweetId)` / push — so the span is one
atomic step on the session state. -/
def processTweet (s : SessionState) (e : TweetElement) :
    SessionState × TweetElement :=
  if !s.extensionEnabled then (s, e)
  else if e.factChecked.isSome then (s, e)
  else
    match extractTweetText e with
    | none => (s, e)
    | some tweetText =>
      if tweetText.isEmpty || tweetText.length < 50 then (s, e)
      else
        match lookupCache s.tweetCache (generateTweetId tweetText) with
        | some cachedResult => (s, applyMarkup e cachedResult)
        | none =>
          if generateTweetId tweetText ∈ s.processingTweets then (s, e)
          else
            ({ s with
                processingTweets :=
                  generateTweetId tweetText :: s.processingTweets,
                requestQueue :=
                  s.requestQueue ++
                    [⟨generateTweetId tweetText, tweetText⟩] },
              setLoading e)

/-- content.js MIN_REQUEST_INTERVAL (milliseconds). -/
def MIN_REQUEST_INTERVAL : Nat := 3000

/-- One iteration of the processRequestQueue dispatch loop, viewed through
the value it stores into `lastRequestTime`. `last` is the previous value of
`lastRequestTime`, `now` the clock when the iteration starts, and `slack ≥ 0`
the extra time that elapses before `lastRequestTime = Date.now()` runs (timer
lateness, or simply the later clock read). When `now - lastRequestTime` is
below the interval the loop first awaits the remaining
`MIN_REQUEST_INTERVAL - (now - last)` milliseconds. -/
def dispatchStart (last now slack : Nat) : Nat :=
  if now - last < MIN_REQUEST_INTERVAL then last + MIN_REQUEST_INTERVAL + slack
  else now + slack

/-- Successive values of `lastRequestTime` along a run of the dispatch loop,
one `(now, slack)` pair per dispatched request. The `isProcessingQueue` flag
makes the loop body sequential, so a run is a simple fold. -/
def dispatchTimes : Nat → List (Nat × Nat) → List Nat
  | _, [] => []
  | last, iter :: rest =>
    dispatchStart last iter.1 iter.2 ::
      dispatchTimes (dispatchStart last iter.1 iter.2) rest

/-- The failure branch of the `.then` callback in processRequestQueue:
`delete tweetElement.dataset.factChecked` and the button reset
(`disabled = false`, label restored, `style.display` cleared). -/
def resetOnFailure (e : TweetElement) : TweetElement :=
  let e := { e with factChecked := none }
  if e.hasButton then
    { e with buttonDisabled := false, buttonLabel := "🔍 Check Fact",
             buttonHidden := false }
  else e

/-- State effects of a request completing: the cache write on success, and
the `processingTweets.delete(tweetId)` performed in the `.finally` of the
promise processTweet returned. The request itself left `requestQueue` when it
was dispatched and is in `inFlight`. -/
def completeState (s : SessionState) (tweetId : String)
    (result : Option Verdict) : SessionState :=
  let s :=
    match result with
    | some v => { s with tweetCache := saveCacheEntry s.tweetCache tweetId v }
    | none => s
  { s with
      inFlight := s.inFlight.erase tweetId,
      processingTweets := s.processingTweets.erase tweetId }

/-- Full completion of a dispatched request for one element: the `.then`
callback of checkTweet (markup on success, reset on failure) followed by the
`.finally` of the processTweet promise, which removes the identity from
`processingTweets` and sets the button `style.display` to none. -/
def completeRequest (s : SessionState) (e : TweetElement) (tweetId : String)
    (result : Option Verdict) : SessionState × TweetElement :=
  let e :=
    match result with
    | some v => applyMarkup e v
    | none => resetOnFailure e
  let e := if e.hasButton then { e with buttonHidden := true } else e
  (completeState s tweetId result, e)

/-- Identities with a pending request: everything in the queue plus
everything dispatched and not yet completed. -/
def pendingIds (s : SessionState) : List String :=
  s.requestQueue.map (fun r => r.tweetId) ++ s.inFlight

/-- Scheduler invariant: every identity has at most one queued-or-in-flight
request, and every pending identity is in the `processingTweets` set. -/
def SchedInv (s : SessionState) : Prop :=
  (∀ id : String, (pendingIds s).count id ≤ 1) ∧
  (∀ id : String, id ∈ pendingIds s → id ∈ s.processingTweets)

/-- The event-loop transitions that touch the scheduler state: a discovery
scan reaching processTweet on some element, the dispatch of the queue head by
processRequestQueue, and the completion (success or failure) of an in-flight
request. -/
inductive SysStep : SessionState → SessionState → Prop where
  | scan (s : SessionState) (e : TweetElement) :
      SysStep s (processTweet s e).1
  | dispatch (s : SessionState) (r : QueuedRequest) (rest : List QueuedRequest) :
      s.requestQueue = r :: rest →
      SysStep s { s with requestQueue := rest, inFlight := r.tweetId :: s.inFlight }
  | complete (s : SessionState) (tweetId : String) (result : Option Verdict) :
      tweetId ∈ s.inFlight →
      SysStep s (completeState s tweetId result)

/-! ### Marker counting helpers -/

def countVerified (ns : List Node) : Nat :=
  ns.countP (fun n => match n with | Node.verifiedBadge => true | _ => false)

def countIncorrect (ns : List Node) : Nat :=
  ns.countP (fun n => match n with | Node.incorrectSpan _ => true | _ => false)

def countCorrection (ns : List Node) : Nat :=
  ns.countP (fun n => match n with | Node.correctionSpan _ => true | _ => false)

/-! ### Helper lemmas -/

theorem lookupCache_saveCacheEntry (m : List (String × Verdict)) (i id : String)
    (v : Verdict) :
    lookupCache (saveCacheEntry m i v) id =
      if id = i then some v else lookupCache m id := by
  by_cases h : id = i
  · subst h
    simp [lookupCache, saveCacheEntry]
  · simp only [lookupCache, saveCacheEntry, if_neg h]
    rw [List.find?_cons_of_neg _ (by simp [beq_iff_eq]; exact fun hc => h hc.symm)]
    congr 1
    induction m with
    | nil => rfl
    | cons kv rest ih =>
      by_cases hk : kv.1 = i
      · rw [List.filter_cons_of_neg (by simp [hk]),
          List.find?_cons_of_neg _ (by simp [beq_iff_eq, hk]; exact fun hc => h hc.symm)]
        exact ih
      · rw [List.filter_cons_of_pos (by simp [hk])]
        by_cases hd : kv.1 = id
        · rw [List.find?_cons_of_pos _ (by simp [beq_iff_eq, hd]),
            List.find?_cons_of_pos _ (by simp [beq_iff_eq, hd])]
        · rw [List.find?_cons_of_neg _ (by simp [beq_iff_eq, hd]),
            List.find?_cons_of_neg _ (by simp [beq_iff_eq, hd])]
          exact ih

theorem dispatchStart_ge (last now slack : Nat) :
    last + MIN_REQUEST_INTERVAL ≤ dispatchStart last now slack := by
  unfold dispatchStart MIN_REQUEST_INTERVAL
  split <;> omega

theorem addCheckButton_of_hasButton (e : TweetElement) (h : e.hasButton = true) :
    addCheckButton e = e := by
  unfold addCheckButton
  simp [h]

theorem addCheckButton_cases (e : TweetElement) :
    addCheckButton e = e ∨ (addCheckButton e).hasButton = true := by
  unfold addCheckButton
  split
  · exact Or.inl rfl
  split
  · exact Or.inl rfl
  split
  · exact Or.inl rfl
  split
  · exact Or.inl rfl
  · exact Or.inr rfl

/-! ### Claims -/

/-- C2: for every pair of successive request dispatches along any run of the
processRequestQueue loop, the `lastRequestTime` stamps are at least
MIN_REQUEST_INTERVAL (3000 ms) apart, measured from the start of the previous
dispatch, independent of when that request completes. -/
theorem dispatch_spacing_lower_bound (last : Nat) (iters : List (Nat × Nat)) :
    List.Chain (fun a b => a + MIN_REQUEST_INTERVAL ≤ b) last
      (dispatchTimes last iters) := by
  induction iters generalizing last with
  | nil => exact List.Chain.nil
  | cons iter rest ih =>
    exact List.Chain.cons (dispatchStart_ge last iter.1 iter.2) (ih _)

/-- C9 counterexample: an entry written by saveCacheEntry at session time 0
gets persisted expiry 10 + CACHE_EXPIRY_MS when the coalesced saveCache
snapshot runs at time 10, and 30 + CACHE_EXPIRY_MS when a later snapshot
runs at time 30 — not the put time plus 7 days, and not fixed at write time. -/
theorem persisted_expiry_recomputed_at_snapshot :
    saveCache (saveCacheEntry [] "7" ⟨false, [], [], "s", ""⟩) 10 =
      [("7", ⟨false, [], [], "s", ""⟩, 604800010)] ∧
    saveCache (saveCacheEntry [] "7" ⟨false, [], [], "s", ""⟩) 30 =
      [("7", ⟨false, [], [], "s", ""⟩, 604800030)] ∧
    (604800010 : Nat) ≠ 0 + CACHE_EXPIRY_MS := by
  refine ⟨rfl, rfl, by decide⟩

/-- C9 amended: put (saveCacheEntry) inserts or overwrites the in-memory
entry without recording any timestamp; the persisted expiresAt of every
entry is computed at each snapshot as snapshot time + 7 days
(CACHE_EXPIRY_DAYS, a configurable constant), so expiry is refreshed on
every persist rather than fixed at write time. -/
theorem put_overwrites_and_snapshot_sets_expiry
    (cache : List (String × Verdict)) (now : Nat) (id : String) (v : Verdict) :
    (saveCache cache now).map (fun ent => ent.2.2) =
      cache.map (fun _ => now + CACHE_EXPIRY_MS) ∧
    lookupCache (saveCacheEntry cache id v) id = some v := by
  constructor
  · simp [saveCache, Function.comp_def]
  · rw [lookupCache_saveCacheEntry]
    simp

/-- C10: button injection is idempotent per element — composing
addCheckButton with itself equals a single application, and invoking it on an
element that already has a check button, or that is already marked checked,
is a no-op. -/
theorem add_button_idempotent :
    (∀ e : TweetElement, addCheckButton (addCheckButton e) = addCheckButton e) ∧
    (∀ e : TweetElement, e.hasButton = true → addCheckButton e = e) ∧
    (∀ e : TweetElement, e.factChecked = some "true" → addCheckButton e = e) := by
  refine ⟨?_, addCheckButton_of_hasButton, ?_⟩
  · intro e
    rcases addCheckButton_cases e with h | h
    · simp only [h]
    · exact addCheckButton_of_hasButton _ h
  · intro e h
    unfold addCheckButton
    split
    · rfl
    · simp [h]

/-- Witness for C10 at a concrete element that already carries a button. -/
theorem add_button_idempotent_witness :
    addCheckButton
      { textNodes := none, warningCount := 0, factChecked := none,
        factcheckResult := none, hasButton := true, buttonDisabled := false,
        buttonLabel := "", buttonHidden := false } =
      { textNodes := none, warningCount := 0, factChecked := none,
        factcheckResult := none, hasButton := true, buttonDisabled := false,
        buttonLabel := "", buttonHidden := false } :=
  add_button_idempotent.2.1 _ rfl

/-- C6: text shorter than 50 characters is never checked — processTweet
leaves the session state (in particular the request queue) and the element
untouched, and the backend route independently answers such text with a 400
error. -/
theorem short_text_never_checked :
    (∀ (s : SessionState) (e : TweetElement) (t : String),
        extractTweetText e = some t → t.length < 50 →
        processTweet s e = (s, e)) ∧
    (∀ (verdictOf : String → Verdict) (t : String), t.length < 50 →
        postCheckTweet verdictOf (some t) =
          ApiResponse.err 400
            "Tweet text is required and must be at least 50 characters") := by
  constructor
  · intro s e t hx hlen
    unfold processTweet
    split
    · rfl
    split
    · rfl
    rw [hx]
    simp [hlen]
  · intro verdictOf t hlen
    unfold postCheckTweet
    simp [hlen]

/-- Witness for C6 on a 9-character tweet. -/
theorem short_text_never_checked_witness :
    processTweet
      { extensionEnabled := true, tweetCache := [], processingTweets := [],
        requestQueue := [], inFlight := [] }
      { textNodes := some [Node.text "too short"], warningCount := 0,
        factChecked := none, factcheckResult := none, hasButton := true,
        buttonDisabled := false, buttonLabel := "", buttonHidden := false } =
      ({ extensionEnabled := true, tweetCache := [], processingTweets := [],
         requestQueue := [], inFlight := [] },
       { textNodes := some [Node.text "too short"], warningCount := 0,
         factChecked := none, factcheckResult := none, hasButton := true,
         buttonDisabled := false, buttonLabel := "", buttonHidden := false }) :=
  short_text_never_checked.1 _ _ "too short" (by decide) (by decide)

/-- C8: on a verdict with hasIssues = false applied to an element whose text
element is present, applyMarkup appends exactly one verified badge, leaves
the text runs untouched, creates no incorrect, correction, or warning
markers, and marks the element checked. -/
theorem verified_render_single_badge (e : TweetElement) (v : Verdict)
    (ns : List Node) (hns : e.textNodes = some ns) (hv : v.hasIssues = false) :
    applyMarkup e v =
      { e with textNodes := some (ns ++ [Node.verifiedBadge]),
               factChecked := some "true" } ∧
    countVerified (ns ++ [Node.verifiedBadge]) = countVerified ns + 1 ∧
    countIncorrect (ns ++ [Node.verifiedBadge]) = countIncorrect ns ∧
    countCorrection (ns ++ [Node.verifiedBadge]) = countCorrection ns ∧
    (applyMarkup e v).warningCount = e.warningCount := by
  have h1 : applyMarkup e v =
      { e with textNodes := some (ns ++ [Node.verifiedBadge]),
               factChecked := some "true" } := by
    unfold applyMarkup
    rw [hns]
    simp [hv]
  refine ⟨h1, ?_, ?_, ?_, by rw [h1]⟩
  · simp [countVerified]
  · simp [countIncorrect]
  · simp [countCorrection]

/-- Witness for C8 on a 60-character true claim. -/
theorem verified_render_single_badge_witness :
    applyMarkup
      { textNodes := some
          [Node.text "Water is composed of hydrogen and oxygen atoms bonded together."],
        warningCount := 0, factChecked := none, factcheckResult := none,
        hasButton := true, buttonDisabled := true, buttonLabel := "",
        buttonHidden := false }
      { hasIssues := false, incorrect := [], corrections := [],
        summary := "No factual issues detected", exaAnalysis := "" } =
      { textNodes := some
          ([Node.text "Water is composed of hydrogen and oxygen atoms bonded together."] ++
            [Node.verifiedBadge]),
        warningCount := 0, factChecked := some "true", factcheckResult := none,
        hasButton := true, buttonDisabled := true, buttonLabel := "",
        buttonHidden := false } :=
  (verified_render_single_badge _ _ _ rfl rfl).1

theorem lookupCache_loadCache_aux (stored : List (String × Verdict × Nat))
    (now : Nat) (id : String) (m : List (String × Verdict))
    (hs : ∀ (v : Verdict) (ex : Nat), (id, v, ex) ∈ stored → ex ≤ now)
    (hm : lookupCache m id = none) :
    lookupCache
      (stored.foldl
        (fun m ent => if now < ent.2.2 then saveCacheEntry m ent.1 ent.2.1 else m)
        m) id = none := by
  induction stored generalizing m with
  | nil => simpa using hm
  | cons ent rest ih =>
    obtain ⟨i, v, ex⟩ := ent
    simp only [List.foldl_cons]
    apply ih
    · intro v₂ ex₂ hmem
      exact hs v₂ ex₂ (List.mem_cons_of_mem _ hmem)
    · by_cases hlt : now < ex
      · rw [if_pos hlt, lookupCache_saveCacheEntry]
        by_cases hid : id = i
        · exfalso
          have hle := hs v ex (by rw [hid]; exact List.mem_cons_self _ _)
          omega
        · rw [if_neg hid]
          exact hm
      · rw [if_neg hlt]
        exact hm

/-- C3 counterexample: a stored entry with expiresAt 100, loaded into the
session at time 50, is still returned by the in-session lookup used by
processTweet even though its expiry has elapsed by any later read time (for
instance 200): the in-session lookup consults no expiry information at all,
so the entry does not behave as absent within the session. -/
theorem in_session_lookup_ignores_expiry :
    lookupCache (loadCache [("7", ⟨false, [], [], "cached", ""⟩, 100)] 50) "7" =
      some ⟨false, [], [], "cached", ""⟩ ∧
    (100 : Nat) ≤ 200 ∧
    ¬ lookupCache (loadCache [("7", ⟨false, [], [], "cached", ""⟩, 100)] 50) "7" =
        none := by
  refine ⟨by decide, by decide, by decide⟩

/-- C3 amended: put followed immediately by lookup returns the stored
verdict, and expiry is enforced only when the persisted snapshot is loaded —
an entry past expiresAt at load time is absent after reload; in-session
reads do not re-check expiry. -/
theorem cache_roundtrip_and_expiry_enforced_on_load :
    (∀ (cache : List (String × Verdict)) (id : String) (v : Verdict),
        lookupCache (saveCacheEntry cache id v) id = some v) ∧
    (∀ (stored : List (String × Verdict × Nat)) (now : Nat) (id : String),
        (∀ (v : Verdict) (ex : Nat), (id, v, ex) ∈ stored → ex ≤ now) →
        lookupCache (loadCache stored now) id = none) := by
  constructor
  · intro cache id v
    rw [lookupCache_saveCacheEntry]
    simp
  · intro stored now id hs
    unfold loadCache
    exact lookupCache_loadCache_aux stored now id [] hs rfl

/-- Witness for C3 amended: the entry with expiresAt 100 is dropped when the
snapshot is loaded at time 200. -/
theorem cache_roundtrip_and_expiry_enforced_on_load_witness :
    lookupCache (loadCache [("7", ⟨false, [], [], "cached", ""⟩, 100)] 200) "7" =
      none :=
  cache_roundtrip_and_expiry_enforced_on_load.2 _ 200 "7"
    (by
      intro v ex hmem
      simp only [List.mem_singleton, Prod.mk.injEq, true_and] at hmem
      obtain ⟨-, hex⟩ := hmem
      omega)

/-- Element and verdict on which render-then-unrender loses text: the tweet
text contains the incorrect phrase verbatim, so applyMarkup wraps it in a
factcheck-incorrect span, and removeAllMarkups removes that span together
with the phrase text it contains. -/
def c4elem : TweetElement :=
  { textNodes := some
      [Node.text "The sky is green and the grass is purple in my garden today."],
    warningCount := 0, factChecked := none, factcheckResult := none,
    hasButton := false, buttonDisabled := false, buttonLabel := "",
    buttonHidden := false }

def c4verdict : Verdict :=
  { hasIssues := true, incorrect := ["sky is green"],
    corrections := ["sky is blue"], summary := "The sky is blue",
    exaAnalysis := "" }

/-- C4 (code bug): un-rendering after rendering removes every marker class
and is a no-op on an unmarked item, but it does not restore the original
text content — the text wrapped in the incorrect marker is deleted together
with its span, so un-render is not a left inverse of render. -/
theorem unrender_does_not_restore_text :
    countIncorrect ((removeMarkupsElem (applyMarkup c4elem c4verdict)).textNodes.getD []) = 0 ∧
    countCorrection ((removeMarkupsElem (applyMarkup c4elem c4verdict)).textNodes.getD []) = 0 ∧
    countVerified ((removeMarkupsElem (applyMarkup c4elem c4verdict)).textNodes.getD []) = 0 ∧
    (removeMarkupsElem (applyMarkup c4elem c4verdict)).warningCount = 0 ∧
    (removeMarkupsElem (applyMarkup c4elem c4verdict)).factChecked = none ∧
    removeMarkupsElem c4elem = c4elem ∧
    textContent ((removeMarkupsElem (applyMarkup c4elem c4verdict)).textNodes.getD []) ≠
      textContent (c4elem.textNodes.getD []) := by
  decide

/-- The failing input for C7: a queued tweet whose dispatched verification
call comes back as HTTP 500, together with the session and element state at
dispatch time. -/
def c7text : String :=
  "The Eiffel Tower is located in Berlin and was built in 1989 overall."

def c7elem : TweetElement :=
  { textNodes := some [Node.text c7text], warningCount := 0,
    factChecked := some "loading", factcheckResult := none, hasButton := true,
    buttonDisabled := true, buttonLabel := "🔍 Checking...",
    buttonHidden := false }

def c7state : SessionState :=
  { extensionEnabled := true, tweetCache := [],
    processingTweets := [generateTweetId c7text], requestQueue := [],
    inFlight := [generateTweetId c7text] }

/-- C7 (code bug): on an HTTP 500 the call resolves to failure; completing
the request adds no marker (text nodes and warning count unchanged), clears
the loading flag, removes the ProcessingSet entry, leaves the queue empty
(no automatic retry), and re-enables the button with its label restored —
but the finally handler of processTweet then sets the button display to none
even on failure, so the item ends with its check button hidden and cannot be
re-checked by clicking. -/
theorem failure_resets_item_but_hides_button :
    checkTweet (FetchOutcome.response 500 none) = none ∧
    completeRequest c7state c7elem (generateTweetId c7text)
        (checkTweet (FetchOutcome.response 500 none)) =
      ({ extensionEnabled := true, tweetCache := [], processingTweets := [],
         requestQueue := [], inFlight := [] },
       { textNodes := some [Node.text c7text], warningCount := 0,
         factChecked := none, factcheckResult := none, hasButton := true,
         buttonDisabled := false, buttonLabel := "🔍 Check Fact",
         buttonHidden := true }) := by
  constructor
  · rfl
  · simp [completeRequest, completeState, resetOnFailure, checkTweet, c7state,
      c7elem]

theorem applyMarkup_factChecked (e : TweetElement) (v : Verdict) (ns : List Node)
    (h : e.textNodes = some ns) : (applyMarkup e v).factChecked = some "true" := by
  unfold applyMarkup
  rw [h]
  by_cases hi : v.hasIssues <;> simp [hi]

theorem setLoading_factChecked (e : TweetElement) :
    (setLoading e).factChecked = some "loading" := by
  unfold setLoading
  split <;> rfl

theorem extractTweetText_textNodes (e : TweetElement) (t : String)
    (h : extractTweetText e = some t) : ∃ ns, e.textNodes = some ns := by
  unfold extractTweetText at h
  match hn : e.textNodes with
  | none => rw [hn] at h; exact absurd h (by simp)
  | some ns => exact ⟨ns, rfl⟩

theorem processTweet_of_factChecked_isSome (s : SessionState) (e : TweetElement)
    (h : e.factChecked.isSome = true) : processTweet s e = (s, e) := by
  unfold processTweet
  split
  · rfl
  · simp [h]

theorem processTweet_cases (s : SessionState) (e : TweetElement) :
    processTweet s e = (s, e) ∨
    ((processTweet s e).2.factChecked).isSome = true := by
  unfold processTweet
  split
  · exact Or.inl rfl
  split
  · exact Or.inl rfl
  split
  · exact Or.inl rfl
  next t heq =>
    split
    · exact Or.inl rfl
    split
    next v hv =>
      obtain ⟨ns, hns⟩ := extractTweetText_textNodes e t heq
      refine Or.inr ?_
      show ((applyMarkup e v).factChecked).isSome = true
      rw [applyMarkup_factChecked e v ns hns]
      rfl
    · split
      · exact Or.inl rfl
      · refine Or.inr ?_
        show ((setLoading e).factChecked).isSome = true
        rw [setLoading_factChecked]
        rfl

/-- C5: the guarded render path is idempotent — running processTweet a second
time on the state and element produced by a first run changes nothing, so the
same visible markers result as from a single run: the renderer sets the
already-checked marker (factChecked) as part of rendering, and that marker
guards re-invocation. -/
theorem render_idempotent_per_item (s : SessionState) (e : TweetElement) :
    processTweet (processTweet s e).1 (processTweet s e).2 = processTweet s e := by
  rcases processTweet_cases s e with h | h
  · rw [h]
    exact h
  · rw [processTweet_of_factChecked_isSome _ _ h]

theorem processTweet_state_cases (s : SessionState) (e : TweetElement) :
    (processTweet s e).1 = s ∨
    ∃ t : String,
      extractTweetText e = some t ∧
      generateTweetId t ∉ s.processingTweets ∧
      (processTweet s e).1 =
        { s with
            processingTweets := generateTweetId t :: s.processingTweets,
            requestQueue := s.requestQueue ++ [⟨generateTweetId t, t⟩] } := by
  unfold processTweet
  split
  · exact Or.inl rfl
  split
  · exact Or.inl rfl
  split
  · exact Or.inl rfl
  next t heq =>
    split
    · exact Or.inl rfl
    split
    · exact Or.inl rfl
    · split
      · exact Or.inl rfl
      · rename_i hnot
        exact Or.inr ⟨t, heq, hnot, rfl⟩

theorem processTweet_noop_when_processing (s : SessionState) (e : TweetElement)
    (t : String) (hx : extractTweetText e = some t)
    (hmem : generateTweetId t ∈ s.processingTweets) :
    (processTweet s e).1 = s := by
  rcases processTweet_state_cases s e with h | ⟨t₂, hx₂, hnot, h⟩
  · exact h
  · exfalso
    rw [hx] at hx₂
    injection hx₂ with ht
    exact hnot (ht ▸ hmem)

theorem schedInv_preserved (s s' : SessionState) (hinv : SchedInv s)
    (hstep : SysStep s s') : SchedInv s' := by
  obtain ⟨hcount, hmem⟩ := hinv
  cases hstep with
  | scan e =>
    rcases processTweet_state_cases s e with h | ⟨t, hx, hnot, h⟩
    · rw [h]; exact ⟨hcount, hmem⟩
    · rw [h]
      have hid0 : (pendingIds s).count (generateTweetId t) = 0 :=
        List.count_eq_zero.mpr (fun hc => hnot (hmem _ hc))
      constructor
      · intro x
        have base := hcount x
        by_cases hx2 : generateTweetId t = x
        · subst hx2
          simp only [pendingIds, List.count_append] at hid0
          simp [pendingIds, List.count_append, List.count_cons]
          omega
        · have hx3 : ¬ ((generateTweetId t : String) == x) = true := by
            simp [beq_iff_eq, hx2]
          simp only [pendingIds, List.count_append] at base
          simp [pendingIds, List.count_append, List.count_cons, hx3]
          omega
      · intro x hx4
        simp only [pendingIds, List.map_append, List.mem_append, List.map_cons,
          List.map_nil, List.mem_singleton] at hx4
        rcases hx4 with (hx4 | hx4) | hx4
        · exact List.mem_cons_of_mem _ (hmem x (by
            simp only [pendingIds, List.mem_append]; exact Or.inl hx4))
        · simp [hx4]
        · exact List.mem_cons_of_mem _ (hmem x (by
            simp only [pendingIds, List.mem_append]; exact Or.inr hx4))
  | dispatch r rest hq =>
    constructor
    · intro x
      have base := hcount x
      simp only [pendingIds, hq, List.map_cons, List.count_append,
        List.count_cons] at base ⊢
      omega
    · intro x hx
      apply hmem
      simp only [pendingIds, hq, List.map_cons, List.mem_append,
        List.mem_cons] at hx ⊢
      tauto
  | complete id result hid =>
    constructor
    · intro x
      have base := hcount x
      have he := List.count_erase x id s.inFlight
      cases result <;>
        simp only [completeState, pendingIds, List.count_append] at base ⊢ <;>
        omega
    · intro x hx
      by_cases hxid : x = id
      · subst hxid
        exfalso
        have h1 : 0 < s.inFlight.count x := List.count_pos_iff.mpr hid
        have base := hcount x
        have he := List.count_erase x x s.inFlight
        have hc : 0 < (pendingIds (completeState s x result)).count x :=
          List.count_pos_iff.mpr hx
        simp only [beq_self_eq_true, if_pos] at he
        cases result <;>
          simp only [completeState, pendingIds, List.count_append] at base hc <;>
          omega
      · have hxs : x ∈ pendingIds s := by
          cases result <;>
            simp only [completeState, pendingIds, List.mem_append] at hx <;>
            rcases hx with h | h
          · exact List.mem_append_left _ h
          · exact List.mem_append_right _ (List.mem_of_mem_erase h)
          · exact List.mem_append_left _ h
          · exact List.mem_append_right _ (List.mem_of_mem_erase h)
        have hp := hmem x hxs
        cases result <;> simp only [completeState] <;>
          exact (List.mem_erase_of_ne hxid).mpr hp

/-- C1: at most one verification request is queued or in flight per identity
at any time. The check of the ProcessingSet and the insertion into it happen
inside the single atomic step processTweet (no suspension point separates
them in the source), every step of the system — a discovery scan reaching
processTweet (also on a second element with the same identity and a
different anchor), a queue dispatch, or a request completion — preserves the
invariant, and a scan whose identity is already in the ProcessingSet leaves
the scheduler state (in particular the request queue) unchanged. -/
theorem at_most_one_request_per_identity :
    (∀ s s' : SessionState, SchedInv s → SysStep s s' → SchedInv s') ∧
    (∀ (s : SessionState) (e : TweetElement) (t : String),
        extractTweetText e = some t →
        generateTweetId t ∈ s.processingTweets →
        (processTweet s e).1 = s) :=
  ⟨schedInv_preserved, processTweet_noop_when_processing⟩

/-- Concrete inputs for the C1 witness: a fresh session scanning one
60-character tweet, and a session already processing that tweet's identity. -/
def c1text : String :=
  "Mount Everest is the tallest mountain above sea level on Earth."

def c1elem : TweetElement :=
  { textNodes := some [Node.text c1text], warningCount := 0,
    factChecked := none, factcheckResult := none, hasButton := true,
    buttonDisabled := false, buttonLabel := "🔍 Check Fact",
    buttonHidden := false }

def c1freshState : SessionState :=
  { extensionEnabled := true, tweetCache := [], processingTweets := [],
    requestQueue := [], inFlight := [] }

def c1busyState : SessionState :=
  { extensionEnabled := true, tweetCache := [],
    processingTweets := [generateTweetId c1text], requestQueue := [],
    inFlight := [generateTweetId c1text] }

/-- Witness for C1: the invariant survives a concrete scan step from the
empty session, and a scan of the same item while its identity is being
processed leaves the concrete busy session unchanged. -/
theorem at_most_one_request_per_identity_witness :
    SchedInv (processTweet c1freshState c1elem).1 ∧
    (processTweet c1busyState c1elem).1 = c1busyState :=
  ⟨at_most_one_request_per_identity.1 _ _
      ⟨fun _ => by simp [pendingIds, c1freshState],
       fun _ h => by simp [pendingIds, c1freshState] at h⟩
      (SysStep.scan _ c1elem),
   at_most_one_request_per_identity.2 _ _ c1text (by decide)
      (List.mem_singleton.mpr rfl)⟩

end FactCheck
